import Mathlib

/-!
Shallow embedding of the tactix_api project-management backend
(`src/tactix_api/app`): the data model (models/), the service layer
(services/) and the route handlers (api/routes/), restricted to the parts
that decide authorization, membership and listing behaviour.

Conventions of the embedding:
* SQLAlchemy rows become Lean structures; nullable columns become `Option`.
* The database session becomes an explicit `DB` value holding the four
  tables and the two membership association tables; mutation becomes
  returning a new `DB`.
* `db.query(T).filter(T.id == x).first()` becomes `List.find?` (the id
  columns are primary keys, so at most one row matches).
* Python truthiness on integer parameters (`if project_id:`) is embedded
  as an explicit `≠ 0` test.
* Pydantic's `dict(exclude_unset=True)` partial-update payloads are
  embedded with `Option` fields where `none` means the field was absent
  from the payload (payloads that explicitly set a field to null are not
  represented; no property below depends on them).
* `HTTPException` status codes become the `ApiError` constructors.
* SQL `OFFSET`/`LIMIT` with the caller's raw integers becomes `sqlWindow`,
  with SQLite's semantics for negative values (negative offset acts as 0,
  negative limit means unlimited).
-/

/-- `app/models/task.py`: TaskStatus enum. -/
inductive TaskStatus where
  | todo
  | in_progress
  | review
  | done
deriving DecidableEq, Repr

/-- `app/models/task.py`: TaskPriority enum. -/
inductive TaskPriority where
  | low
  | medium
  | high
  | urgent
deriving DecidableEq, Repr

/-- `app/models/user.py` (imported by every route/service; file not under
`src/`). Modelled from the spec: "User: identity with `is_superuser`
flag." Only the columns the authorization logic reads are carried. -/
structure UserRow where
  id : Nat
  is_superuser : Bool
deriving DecidableEq, Repr

/-- `app/models/workspace.py`: the workspaces table. -/
structure WorkspaceRow where
  id : Nat
  name : String
  description : Option String
  owner_id : Nat
deriving DecidableEq, Repr

/-- `app/models/project.py`: the projects table. -/
structure ProjectRow where
  id : Nat
  name : String
  description : Option String
  workspace_id : Nat
deriving DecidableEq, Repr

/-- `app/models/task.py`: the tasks table. `created_by_id` is declared
`nullable=False` and `assignee_id` `nullable=True`; `due_date` is an
opaque timestamp. -/
structure TaskRow where
  id : Nat
  title : String
  description : Option String
  status : TaskStatus
  priority : TaskPriority
  due_date : Option Nat
  project_id : Nat
  assignee_id : Option Nat
  created_by_id : Nat
deriving DecidableEq, Repr

/-- The database session state: the four entity tables plus the
`workspace_members` and `project_members` association tables
(`app/models/workspace.py`, `app/models/project.py`). An association row
is a `(parent_id, user_id)` pair. -/
structure DB where
  users : List UserRow
  workspaces : List WorkspaceRow
  projects : List ProjectRow
  tasks : List TaskRow
  wsMembers : List (Nat × Nat)
  projMembers : List (Nat × Nat)
deriving DecidableEq, Repr

/-- SQL `OFFSET skip LIMIT limit` applied to a result list, with the raw
caller-supplied integers (SQLite: a negative offset behaves like 0, a
negative limit means no limit). -/
def sqlWindow (skip limit : Int) (xs : List α) : List α :=
  let dropped := if skip ≤ 0 then xs else xs.drop skip.toNat
  if limit < 0 then dropped else dropped.take limit.toNat

/-- `app/utils/helpers.py` `paginate_query_params`: clamp `skip` to ≥ 0
and `limit` into `[1, 1000]`. Defined in the source but called by no
route or service. -/
def paginate_query_params (skip limit : Int) : Int × Int :=
  (max 0 skip, max 1 (min limit 1000))

namespace WorkspaceService

/-- `WorkspaceService.is_member`: a `workspace_members` row exists. -/
def is_member (db : DB) (workspace_id user_id : Nat) : Bool :=
  db.wsMembers.any fun e => e.1 == workspace_id && e.2 == user_id

/-- `WorkspaceService.is_owner`. -/
def is_owner (db : DB) (workspace_id user_id : Nat) : Bool :=
  match db.workspaces.find? (fun w => w.id == workspace_id) with
  | some w => w.owner_id == user_id
  | none => false

/-- `WorkspaceService.has_access`: owner or member. -/
def has_access (db : DB) (workspace_id user_id : Nat) : Bool :=
  is_owner db workspace_id user_id || is_member db workspace_id user_id

/-- `WorkspaceService.add_member`: workspace must exist, user must exist,
then a duplicate add is a no-op returning `true`; otherwise the
association row is inserted. -/
def add_member (db : DB) (workspace_id user_id : Nat) : DB × Bool :=
  match db.workspaces.find? (fun w => w.id == workspace_id) with
  | none => (db, false)
  | some _ =>
    match db.users.find? (fun u => u.id == user_id) with
    | none => (db, false)
    | some _ =>
      if db.wsMembers.any fun e => e.1 == workspace_id && e.2 == user_id then
        (db, true)
      else
        ({ db with wsMembers := db.wsMembers ++ [(workspace_id, user_id)] }, true)

/-- Server-side id assignment for a workspace insert: one more than the
largest existing workspace id (fresh with respect to the table). -/
def freshWorkspaceId (db : DB) : Nat :=
  (db.workspaces.map (fun w => w.id)).foldr max 0 + 1

/-- `WorkspaceService.create_workspace`: insert the workspace with the
given owner, then add the owner as a member via `add_member`. -/
def create_workspace (db : DB) (name : String) (description : Option String)
    (owner_id : Nat) : DB × WorkspaceRow :=
  let w : WorkspaceRow :=
    { id := freshWorkspaceId db, name := name, description := description
      owner_id := owner_id }
  let db1 := { db with workspaces := db.workspaces ++ [w] }
  let db2 := (add_member db1 w.id owner_id).1
  (db2, w)

/-- `WorkspaceService.get_workspaces_by_user`: inner join of `workspaces`
with `workspace_members` on the workspace id, filtered by
`owner_id == user_id OR member.user_id == user_id`, `DISTINCT`, then the
offset/limit window. A workspace appears iff some association row for it
satisfies the disjunction. -/
def get_workspaces_by_user (db : DB) (user_id : Nat)
    (skip limit : Int) : List WorkspaceRow :=
  sqlWindow skip limit <| db.workspaces.filter fun w =>
    db.wsMembers.any fun e => e.1 == w.id && (w.owner_id == user_id || e.2 == user_id)

end WorkspaceService

namespace ProjectService

/-- `ProjectService.is_member`: a `project_members` row exists. -/
def is_member (db : DB) (project_id user_id : Nat) : Bool :=
  db.projMembers.any fun e => e.1 == project_id && e.2 == user_id

/-- `ProjectService.has_access`: the project exists and the user is a
project member or has workspace access. -/
def has_access (db : DB) (project_id user_id : Nat) : Bool :=
  match db.projects.find? (fun p => p.id == project_id) with
  | none => false
  | some p =>
    is_member db project_id user_id
      || WorkspaceService.has_access db p.workspace_id user_id

/-- `ProjectService.add_member`: project must exist, user must exist, the
user must have access to the project's workspace (checked BEFORE the
duplicate test), then a duplicate add is a no-op returning `true`;
otherwise the association row is inserted. -/
def add_member (db : DB) (project_id user_id : Nat) : DB × Bool :=
  match db.projects.find? (fun p => p.id == project_id) with
  | none => (db, false)
  | some p =>
    match db.users.find? (fun u => u.id == user_id) with
    | none => (db, false)
    | some _ =>
      if !WorkspaceService.has_access db p.workspace_id user_id then
        (db, false)
      else if db.projMembers.any fun e => e.1 == project_id && e.2 == user_id then
        (db, true)
      else
        ({ db with projMembers := db.projMembers ++ [(project_id, user_id)] }, true)

/-- `ProjectService.get_projects_by_user`: inner join of `projects` with
`project_members` filtered on the user id — projects where the user is an
explicit project member — then the offset/limit window. -/
def get_projects_by_user (db : DB) (user_id : Nat)
    (skip limit : Int) : List ProjectRow :=
  sqlWindow skip limit <| db.projects.filter fun p => is_member db p.id user_id

end ProjectService

/-- `app/schemas/task.py` `TaskCreate`: `title` and `project_id` are
required, the rest optional. -/
structure TaskCreate where
  title : String
  description : Option String
  status : Option TaskStatus
  priority : Option TaskPriority
  due_date : Option Nat
  project_id : Nat
  assignee_id : Option Nat
deriving DecidableEq, Repr

/-- `app/schemas/task.py` `TaskUpdate`: every field optional; `none` means
the field was absent from the payload (`exclude_unset` semantics). -/
structure TaskUpdate where
  title : Option String := none
  description : Option String := none
  status : Option TaskStatus := none
  priority : Option TaskPriority := none
  due_date : Option Nat := none
  project_id : Option Nat := none
  assignee_id : Option Nat := none
deriving DecidableEq, Repr

/-- The `for field, value in update_data.items(): setattr(task, field, value)`
loop over a `dict(exclude_unset=True)` payload: each field present in the
payload overwrites the row's field, absent fields are untouched. -/
def applyTaskUpdate (t : TaskRow) (u : TaskUpdate) : TaskRow :=
  { t with
    title := u.title.getD t.title
    description := match u.description with
      | some d => some d
      | none => t.description
    status := u.status.getD t.status
    priority := u.priority.getD t.priority
    due_date := match u.due_date with
      | some d => some d
      | none => t.due_date
    project_id := u.project_id.getD t.project_id
    assignee_id := match u.assignee_id with
      | some a => some a
      | none => t.assignee_id }

/-- The columns declared on the `Task` entity in `app/models/task.py`. -/
def taskColumns : List String :=
  ["id", "title", "description", "status", "priority", "due_date",
   "project_id", "assignee_id", "created_by_id", "created_at", "updated_at"]

/-- The keyword-argument names `TaskService.create_task` passes to the
`Task(...)` constructor (`app/services/task_service.py` lines 108-117). -/
def taskServiceCreateKwargs : List String :=
  ["title", "description", "status", "priority", "due_date",
   "project_id", "assignee_id", "creator_id"]

/-- The keyword-argument names the route handler `create_task` passes to
the `Task(...)` constructor (`app/api/routes/tasks.py` lines 88-91):
`**task_in.dict()` plus `created_by_id=current_user.id`. -/
def routeCreateTaskKwargs : List String :=
  ["title", "description", "status", "priority", "due_date",
   "project_id", "assignee_id", "created_by_id"]

namespace TaskService

/-- `TaskService.get_tasks_by_user_access`: collect the projects where the
user is an explicit project member (via `get_projects_by_user`, called
with its default window `skip=0, limit=100`), return `[]` when there are
none, otherwise the tasks whose `project_id` is among them, optionally
filtered by status, windowed. -/
def get_tasks_by_user_access (db : DB) (user_id : Nat)
    (status : Option TaskStatus) (skip limit : Int) : List TaskRow :=
  let project_ids :=
    (ProjectService.get_projects_by_user db user_id 0 100).map fun p => p.id
  if project_ids.isEmpty then []
  else
    sqlWindow skip limit <| db.tasks.filter fun t =>
      project_ids.contains t.project_id
        && (match status with
            | some s => t.status == s
            | none => true)

/-- Outcome of `TaskService.create_task`: either one of the `return None`
branches fires, or control reaches the `Task(...)` constructor call whose
keyword arguments are named by `taskServiceCreateKwargs` (that call names
a `creator_id` field the `Task` entity does not declare, so no row with a
populated `created_by_id` can result from it; the session is not
committed before that point, so the database is unchanged either way). -/
inductive SvcCreate where
  | retNone
  | callsTaskCtor
deriving DecidableEq, Repr

/-- `TaskService.create_task` up to the `Task(...)` constructor call:
creator must have project access, a truthy `assignee_id` must name an
existing user with project access; then the constructor is invoked with
the `taskServiceCreateKwargs` keyword arguments. -/
def create_task (db : DB) (task : TaskCreate) (project_id creator_id : Nat) :
    SvcCreate :=
  if !ProjectService.has_access db project_id creator_id then .retNone
  else
    match task.assignee_id with
    | some a =>
      if a != 0 then
        match db.users.find? (fun u => u.id == a) with
        | none => .retNone
        | some _ =>
          if !ProjectService.has_access db project_id a then .retNone
          else .callsTaskCtor
      else .callsTaskCtor
    | none => .callsTaskCtor

/-- `TaskService.update_task`: find the task, require project access for
the caller, validate a present truthy assignee (must exist and have
project access), then apply the partial payload. -/
def update_task (db : DB) (task_id : Nat) (task_update : TaskUpdate)
    (user_id : Nat) : DB × Option TaskRow :=
  match db.tasks.find? (fun t => t.id == task_id) with
  | none => (db, none)
  | some t =>
    if !ProjectService.has_access db t.project_id user_id then (db, none)
    else
      let ok : Bool :=
        match task_update.assignee_id with
        | some a =>
          if a != 0 then
            match db.users.find? (fun u => u.id == a) with
            | none => false
            | some _ => ProjectService.has_access db t.project_id a
          else true
        | none => true
      if ok then
        let t' := applyTaskUpdate t task_update
        ({ db with tasks := db.tasks.map fun x => if x.id == task_id then t' else x },
         some t')
      else (db, none)

/-- `TaskService.delete_task`: find the task, require project access for
the caller, then delete the row. -/
def delete_task (db : DB) (task_id : Nat) (user_id : Nat) : DB × Bool :=
  match db.tasks.find? (fun t => t.id == task_id) with
  | none => (db, false)
  | some t =>
    if !ProjectService.has_access db t.project_id user_id then (db, false)
    else
      ({ db with tasks := db.tasks.filter fun x => !(x.id == t.id) }, true)

end TaskService

/-- The `HTTPException` status codes the route handlers raise, plus
`internalError` for the `AttributeError` a handler hits when it
dereferences a parent row that its unguarded query failed to find. -/
inductive ApiError where
  | notFound
  | permissionDenied
  | badRequest
  | internalError
deriving DecidableEq, Repr

namespace routes

/-- `app/api/routes/workspaces.py` `read_workspaces`: superusers get the
full table; others get workspaces they own or are members of; the raw
skip/limit window is applied unclamped. -/
def read_workspaces (db : DB) (skip limit : Int) (current_user : UserRow) :
    List WorkspaceRow :=
  if current_user.is_superuser then
    sqlWindow skip limit db.workspaces
  else
    sqlWindow skip limit <| db.workspaces.filter fun w =>
      w.owner_id == current_user.id
        || WorkspaceService.is_member db w.id current_user.id

/-- `app/api/routes/workspaces.py` `create_workspace`: insert the
workspace with the actor as owner and return it. No membership row is
added on this path. -/
def create_workspace (db : DB) (name : String) (description : Option String)
    (current_user : UserRow) : DB × WorkspaceRow :=
  let w : WorkspaceRow :=
    { id := WorkspaceService.freshWorkspaceId db, name := name
      description := description, owner_id := current_user.id }
  ({ db with workspaces := db.workspaces ++ [w] }, w)

/-- `app/api/routes/workspaces.py` `add_workspace_member`: 404 when the
workspace or the user is missing, 403 unless the actor is a superuser or
the owner, 400 when the user is already a member, else insert the row. -/
def add_workspace_member (db : DB) (workspace_id user_id : Nat)
    (current_user : UserRow) : DB × Except ApiError WorkspaceRow :=
  match db.workspaces.find? (fun w => w.id == workspace_id) with
  | none => (db, .error .notFound)
  | some w =>
    if !(current_user.is_superuser || w.owner_id == current_user.id) then
      (db, .error .permissionDenied)
    else
      match db.users.find? (fun u => u.id == user_id) with
      | none => (db, .error .notFound)
      | some _ =>
        if WorkspaceService.is_member db workspace_id user_id then
          (db, .error .badRequest)
        else
          ({ db with wsMembers := db.wsMembers ++ [(workspace_id, user_id)] },
           .ok w)

/-- `app/api/routes/projects.py` `add_project_member`: 404 when the
project or the user is missing, 403 unless the actor is a superuser or
the workspace owner, 400 when the user is already a project member, else
insert the row. No workspace-access condition is imposed on the
candidate on this path. -/
def add_project_member (db : DB) (project_id user_id : Nat)
    (current_user : UserRow) : DB × Except ApiError ProjectRow :=
  match db.projects.find? (fun p => p.id == project_id) with
  | none => (db, .error .notFound)
  | some p =>
    match db.workspaces.find? (fun w => w.id == p.workspace_id) with
    | none => (db, .error .internalError)
    | some w =>
      if !(current_user.is_superuser || w.owner_id == current_user.id) then
        (db, .error .permissionDenied)
      else
        match db.users.find? (fun u => u.id == user_id) with
        | none => (db, .error .notFound)
        | some _ =>
          if ProjectService.is_member db project_id user_id then
            (db, .error .badRequest)
          else
            ({ db with projMembers := db.projMembers ++ [(project_id, user_id)] },
             .ok p)

/-- `app/api/routes/tasks.py` `read_tasks`: optional truthy filters on
project, status and assignee; non-superusers additionally joined through
`Project` and `Workspace` and filtered by the assignee / creator /
project-member / workspace-owner / workspace-member disjunction; the raw
skip/limit window is applied unclamped. -/
def read_tasks (db : DB) (skip limit : Int)
    (project_id : Option Nat) (status : Option TaskStatus)
    (assignee_id : Option Nat) (current_user : UserRow) : List TaskRow :=
  let filtered := db.tasks.filter fun t =>
    (match project_id with
     | some pid => pid == 0 || t.project_id == pid
     | none => true)
      && (match status with
          | some s => t.status == s
          | none => true)
      && (match assignee_id with
          | some a => a == 0 || t.assignee_id == some a
          | none => true)
  let visible :=
    if current_user.is_superuser then filtered
    else
      filtered.filter fun t =>
        match db.projects.find? (fun p => p.id == t.project_id) with
        | none => false
        | some p =>
          match db.workspaces.find? (fun w => w.id == p.workspace_id) with
          | none => false
          | some w =>
            t.assignee_id == some current_user.id
              || t.created_by_id == current_user.id
              || ProjectService.is_member db p.id current_user.id
              || w.owner_id == current_user.id
              || WorkspaceService.is_member db w.id current_user.id
  sqlWindow skip limit visible

/-- Server-side id assignment for a task insert. -/
def freshTaskId (db : DB) : Nat :=
  (db.tasks.map fun t => t.id).foldr max 0 + 1

/-- `app/api/routes/tasks.py` `create_task`: 404 when the project is
missing, 403 unless the actor is a superuser / workspace owner /
workspace member / project member, then a truthy assignee must exist
(404) and be a project member, the workspace owner or a workspace member
(400), and the task is inserted with `created_by_id = current_user.id`. -/
def create_task (db : DB) (task_in : TaskCreate) (current_user : UserRow) :
    DB × Except ApiError TaskRow :=
  match db.projects.find? (fun p => p.id == task_in.project_id) with
  | none => (db, .error .notFound)
  | some p =>
    match db.workspaces.find? (fun w => w.id == p.workspace_id) with
    | none => (db, .error .internalError)
    | some w =>
      if !(current_user.is_superuser || w.owner_id == current_user.id
            || WorkspaceService.is_member db w.id current_user.id
            || ProjectService.is_member db p.id current_user.id) then
        (db, .error .permissionDenied)
      else
        let assigneeOk : Except ApiError Unit :=
          match task_in.assignee_id with
          | some a =>
            if a != 0 then
              match db.users.find? (fun u => u.id == a) with
              | none => .error .notFound
              | some _ =>
                if !ProjectService.is_member db p.id a && !(a == w.owner_id)
                    && !WorkspaceService.is_member db w.id a then
                  .error .badRequest
                else .ok ()
            else .ok ()
          | none => .ok ()
        match assigneeOk with
        | .error e => (db, .error e)
        | .ok _ =>
          let t : TaskRow :=
            { id := freshTaskId db, title := task_in.title
              description := task_in.description
              status := task_in.status.getD .todo
              priority := task_in.priority.getD .medium
              due_date := task_in.due_date
              project_id := task_in.project_id
              assignee_id := task_in.assignee_id
              created_by_id := current_user.id }
          ({ db with tasks := db.tasks ++ [t] }, .ok t)

/-- `app/api/routes/tasks.py` `update_task`: 404 when the task is
missing, 403 unless the actor is a superuser / workspace owner / task
creator / task assignee, then a truthy assignee that differs from the
current one must exist (404) and be a project member, the workspace
owner or a workspace member (400), and the present payload fields are
applied. -/
def update_task (db : DB) (task_id : Nat) (task_in : TaskUpdate)
    (current_user : UserRow) : DB × Except ApiError TaskRow :=
  match db.tasks.find? (fun t => t.id == task_id) with
  | none => (db, .error .notFound)
  | some t =>
    match db.projects.find? (fun p => p.id == t.project_id) with
    | none => (db, .error .internalError)
    | some p =>
      match db.workspaces.find? (fun w => w.id == p.workspace_id) with
      | none => (db, .error .internalError)
      | some w =>
        if !(current_user.is_superuser || w.owner_id == current_user.id
              || t.created_by_id == current_user.id
              || t.assignee_id == some current_user.id) then
          (db, .error .permissionDenied)
        else
          let assigneeOk : Except ApiError Unit :=
            match task_in.assignee_id with
            | some a =>
              if a != 0 && !(t.assignee_id == some a) then
                match db.users.find? (fun u => u.id == a) with
                | none => .error .notFound
                | some _ =>
                  if !ProjectService.is_member db p.id a && !(a == w.owner_id)
                      && !WorkspaceService.is_member db w.id a then
                    .error .badRequest
                  else .ok ()
              else .ok ()
            | none => .ok ()
          match assigneeOk with
          | .error e => (db, .error e)
          | .ok _ =>
            let t' := applyTaskUpdate t task_in
            ({ db with
                tasks := db.tasks.map fun x => if x.id == task_id then t' else x },
             .ok t')

/-- `app/api/routes/tasks.py` `delete_task`: 404 when the task is
missing, 403 unless the actor is a superuser, the workspace owner or the
task's creator (the assignee is NOT granted delete on this path), then
the row is deleted. -/
def delete_task (db : DB) (task_id : Nat) (current_user : UserRow) :
    DB × Except ApiError TaskRow :=
  match db.tasks.find? (fun t => t.id == task_id) with
  | none => (db, .error .notFound)
  | some t =>
    match db.projects.find? (fun p => p.id == t.project_id) with
    | none => (db, .error .internalError)
    | some p =>
      match db.workspaces.find? (fun w => w.id == p.workspace_id) with
      | none => (db, .error .internalError)
      | some w =>
        if !(current_user.is_superuser || w.owner_id == current_user.id
              || t.created_by_id == current_user.id) then
          (db, .error .permissionDenied)
        else
          ({ db with tasks := db.tasks.filter fun x => !(x.id == t.id) }, .ok t)

end routes

deriving instance DecidableEq for Except

theorem mem_of_mem_sqlWindow {α : Type} {x : α} {skip limit : Int} {xs : List α}
    (h : x ∈ sqlWindow skip limit xs) : x ∈ xs := by
  simp only [sqlWindow] at h
  have h1 : x ∈ (if skip ≤ 0 then xs else xs.drop skip.toNat) := by
    by_cases hl : limit < 0
    · simpa [hl] using h
    · simp only [hl, if_false] at h
      exact List.mem_of_mem_take h
  by_cases hs : skip ≤ 0
  · simpa [hs] using h1
  · simp only [hs, if_false] at h1
    exact List.mem_of_mem_drop h1

theorem sqlWindow_of_length_le {α : Type} {xs : List α} {n : Int}
    (h : xs.length ≤ n.toNat) : sqlWindow 0 n xs = xs := by
  simp only [sqlWindow]
  by_cases hl : n < 0
  · simp [hl]
  · simp [hl, List.take_of_length_le h]

/-- Example user 1 (owns the example workspace). -/
def exUser1 : UserRow := { id := 1, is_superuser := false }

/-- Example user 2 (created the example task). -/
def exUser2 : UserRow := { id := 2, is_superuser := false }

/-- Example user 3 (assignee of the example task, no other role). -/
def exUser3 : UserRow := { id := 3, is_superuser := false }

/-- Example superuser with no ownership or membership anywhere. -/
def exSuper9 : UserRow := { id := 9, is_superuser := true }

/-- Example workspace owned by user 1. -/
def exWs1 : WorkspaceRow := { id := 1, name := "w", description := none, owner_id := 1 }

/-- Example project in workspace 1. -/
def exProj1 : ProjectRow := { id := 1, name := "p", description := none, workspace_id := 1 }

/-- Example task in project 1, created by user 2, assigned to user 3. -/
def exTask1 : TaskRow :=
  { id := 1, title := "t", description := none, status := TaskStatus.todo
    priority := TaskPriority.medium, due_date := none, project_id := 1
    assignee_id := some 3, created_by_id := 2 }

/-- Base example database: users 1/2/3, workspace 1 (owner 1), project 1,
task 1; both membership tables empty. -/
def exDB : DB :=
  { users := [exUser1, exUser2, exUser3], workspaces := [exWs1]
    projects := [exProj1], tasks := [exTask1], wsMembers := [], projMembers := [] }

/-- C2: the claim says `created_by` equals the requesting actor's id on
every create path including `TaskService.create_task`, and the code is
wrong on that path: the service passes a `creator_id` keyword to the
`Task(...)` constructor, but the `Task` entity declares no such column
and the service never passes `created_by_id`, so the non-nullable
`created_by_id` column is never populated with the actor's id there. The
route-level create path does pass `created_by_id`, and a concrete
route-level creation by user 1 yields a task whose `created_by_id` is 1. -/
theorem C2_service_create_misses_created_by :
    "creator_id" ∈ taskServiceCreateKwargs ∧
    "creator_id" ∉ taskColumns ∧
    "created_by_id" ∉ taskServiceCreateKwargs ∧
    "created_by_id" ∈ taskColumns ∧
    "created_by_id" ∈ routeCreateTaskKwargs ∧
    (∃ t, (routes.create_task exDB
        { title := "t2", description := none, status := none, priority := none
          due_date := none, project_id := 1, assignee_id := none } exUser1).2
        = Except.ok t ∧ t.created_by_id = exUser1.id) := by
  refine ⟨by decide, by decide, by decide, by decide, by decide, ?_⟩
  exact ⟨_, rfl, rfl⟩

/-- C10: `WorkspaceService.get_workspaces_by_user` inner-joins the
workspaces table with `workspace_members` before applying the
owner-or-member filter, so a workspace with no membership rows is never
returned — even to its own owner. -/
theorem C10_memberless_workspace_not_listed
    (db : DB) (user_id : Nat) (skip limit : Int) (w : WorkspaceRow)
    (hw : w ∈ db.workspaces) (hown : w.owner_id = user_id)
    (hnone : ∀ e ∈ db.wsMembers, e.1 ≠ w.id) :
    w ∉ WorkspaceService.get_workspaces_by_user db user_id skip limit := by
  intro hmem
  unfold WorkspaceService.get_workspaces_by_user at hmem
  have h1 := mem_of_mem_sqlWindow hmem
  have h2 := List.of_mem_filter h1
  rw [List.any_eq_true] at h2
  obtain ⟨e, he, hpe⟩ := h2
  have h3 : e.1 = w.id := by
    have h4 := (Bool.and_eq_true _ _).mp hpe
    exact eq_of_beq h4.1
  exact hnone e he h3

/-- C10 witness: in the base example database the workspace has no
membership rows, and its owner (user 1) does not see it. -/
theorem C10_witness :
    exWs1 ∉ WorkspaceService.get_workspaces_by_user exDB 1 0 100 :=
  C10_memberless_workspace_not_listed exDB 1 0 100 exWs1 (by decide)
    (by decide) (by decide)

/-- Example database with 1001 workspaces, for exercising the pagination
window. -/
def exManyWsDB : DB :=
  { users := [exSuper9]
    workspaces := (List.range 1001).map fun i =>
      { id := i, name := "", description := none, owner_id := 0 }
    projects := [], tasks := [], wsMembers := [], projMembers := [] }

/-- C8 counterexample: the claim says every list operation clamps the
window to `skip ≥ 0` and `limit ≤ 1000` before querying, but
`read_workspaces` passes the caller's raw `skip = -5`, `limit = 5000`
straight to the query and returns 1001 rows — more than the claimed
maximum of 1000. -/
theorem C8_counterexample :
    1000 < (routes.read_workspaces exManyWsDB (-5) 5000 exSuper9).length := by
  have h : (routes.read_workspaces exManyWsDB (-5) 5000 exSuper9).length = 1001 := by
    simp [routes.read_workspaces, exManyWsDB, exSuper9, sqlWindow]
  omega

/-- C8 amended: `paginate_query_params` does clamp (`skip ≥ 0`,
`1 ≤ limit ≤ 1000`), but the list routes never call it: for a superuser,
`read_workspaces` is exactly the raw unclamped window over the
workspaces table. -/
theorem C8_clamped_helper_unused_by_routes
    (skip limit : Int) (db : DB) (cu : UserRow) (hsu : cu.is_superuser = true) :
    0 ≤ (paginate_query_params skip limit).1 ∧
    1 ≤ (paginate_query_params skip limit).2 ∧
    (paginate_query_params skip limit).2 ≤ 1000 ∧
    routes.read_workspaces db skip limit cu = sqlWindow skip limit db.workspaces := by
  refine ⟨le_max_left _ _, le_max_left _ _, ?_, ?_⟩
  · exact max_le (by norm_num) (min_le_right _ _)
  · simp [routes.read_workspaces, hsu]

/-- C8 witness: the amended statement at `skip = -5`, `limit = 5000` on
the 1001-workspace database. -/
theorem C8_witness :
    0 ≤ (paginate_query_params (-5) 5000).1 ∧
    1 ≤ (paginate_query_params (-5) 5000).2 ∧
    (paginate_query_params (-5) 5000).2 ≤ 1000 ∧
    routes.read_workspaces exManyWsDB (-5) 5000 exSuper9
      = sqlWindow (-5) 5000 exManyWsDB.workspaces :=
  C8_clamped_helper_unused_by_routes (-5) 5000 exManyWsDB exSuper9 rfl

theorem ws_is_member_after_add_member
    (db : DB) (wid uid : Nat)
    (hw : (db.workspaces.find? (fun w => w.id == wid)).isSome)
    (hu : (db.users.find? (fun u => u.id == uid)).isSome) :
    WorkspaceService.is_member (WorkspaceService.add_member db wid uid).1 wid uid = true := by
  unfold WorkspaceService.add_member
  rcases h1 : db.workspaces.find? (fun w => w.id == wid) with _ | w'
  · rw [h1] at hw; simp at hw
  rcases h2 : db.users.find? (fun u => u.id == uid) with _ | u'
  · rw [h2] at hu; simp at hu
  simp only [h1, h2]
  by_cases h3 : (db.wsMembers.any fun e => e.1 == wid && e.2 == uid) = true
  · simpa [h3, WorkspaceService.is_member] using h3
  · simp only [Bool.not_eq_true] at h3
    simp [h3, WorkspaceService.is_member, List.any_append]

/-- C3 (amended): the service-level `create_workspace` adds the creator
as a member, so `is_member` holds immediately afterwards (whenever the
creator exists in the users table); the route-level `create_workspace`
handler inserts the workspace with the creator as owner but never adds a
membership row, so `is_member` is false immediately after a route-level
creation (for a fresh workspace id). -/
theorem C3_creator_membership_service_only
    (db : DB) (name : String) (desc : Option String) (owner_id : Nat)
    (hu : ∃ u ∈ db.users, u.id = owner_id) :
    WorkspaceService.is_member
      (WorkspaceService.create_workspace db name desc owner_id).1
      (WorkspaceService.create_workspace db name desc owner_id).2.id owner_id = true ∧
    (∀ cu : UserRow, (∀ e ∈ db.wsMembers, e.1 ≠ WorkspaceService.freshWorkspaceId db) →
      WorkspaceService.is_member
        (routes.create_workspace db name desc cu).1
        (routes.create_workspace db name desc cu).2.id cu.id = false) := by
  constructor
  · simp only [WorkspaceService.create_workspace]
    apply ws_is_member_after_add_member
    · rw [List.find?_isSome]
      refine ⟨{ id := WorkspaceService.freshWorkspaceId db, name := name
                description := desc, owner_id := owner_id }, ?_, by simp⟩
      simp
    · rw [List.find?_isSome]
      obtain ⟨u, hmem, heq⟩ := hu
      exact ⟨u, by simpa using hmem, by simp [heq]⟩
  · intro cu hfresh
    simp only [routes.create_workspace, WorkspaceService.is_member]
    rw [List.any_eq_false]
    intro e he
    simp only [Bool.and_eq_true, beq_iff_eq, not_and]
    intro h1 _
    exact hfresh e he h1

/-- C3 counterexample: the claim requires the creator to be a member on
every create path, route-level included; in the base example database a
route-level creation by user 1 yields a workspace owned by user 1 of
which user 1 is not a member. -/
theorem C3_counterexample :
    WorkspaceService.is_member
      (routes.create_workspace exDB "n" none exUser1).1
      (routes.create_workspace exDB "n" none exUser1).2.id exUser1.id = false ∧
    (routes.create_workspace exDB "n" none exUser1).2.owner_id = exUser1.id :=
  ⟨by decide, by decide⟩

/-- C3 witness: the amended statement on the base example database —
service-level creation by user 1 makes user 1 a member, route-level
creation by user 2 does not make user 2 a member. -/
theorem C3_witness :
    WorkspaceService.is_member
      (WorkspaceService.create_workspace exDB "n" none 1).1
      (WorkspaceService.create_workspace exDB "n" none 1).2.id 1 = true ∧
    WorkspaceService.is_member
      (routes.create_workspace exDB "n" none exUser2).1
      (routes.create_workspace exDB "n" none exUser2).2.id exUser2.id = false :=
  ⟨(C3_creator_membership_service_only exDB "n" none 1 ⟨exUser1, by decide, rfl⟩).1,
   (C3_creator_membership_service_only exDB "n" none 1 ⟨exUser1, by decide, rfl⟩).2
     exUser2 (by decide)⟩

/-- Example database where user 2 is both a workspace member and a
project member. -/
def exDBBothMember2 : DB :=
  { exDB with wsMembers := [(1, 2)], projMembers := [(1, 2)] }

/-- Example database where user 3 is a project member but has no
workspace access (not the owner, not a workspace member). -/
def exDBProjOnly3 : DB := { exDB with projMembers := [(1, 3)] }

/-- C4 (amended): `WorkspaceService.add_member` is an idempotent no-op
success for an existing member; `ProjectService.add_member` is an
idempotent no-op success for an existing member PROVIDED the member also
has workspace access (the access check precedes the duplicate check, so
an existing project member without workspace access gets a failure
instead); the route-level add-member handler turns "already a member"
into a 400 client error. -/
theorem C4_duplicate_add_member_by_layer
    (db : DB) (wid pid uid : Nat) (cu : UserRow) (w : WorkspaceRow) (p : ProjectRow) :
    ((db.workspaces.find? (fun x => x.id == wid)).isSome →
      (db.users.find? (fun x => x.id == uid)).isSome →
      WorkspaceService.is_member db wid uid = true →
      WorkspaceService.add_member db wid uid = (db, true)) ∧
    (db.projects.find? (fun x => x.id == pid) = some p →
      (db.users.find? (fun x => x.id == uid)).isSome →
      WorkspaceService.has_access db p.workspace_id uid = true →
      ProjectService.is_member db pid uid = true →
      ProjectService.add_member db pid uid = (db, true)) ∧
    (db.workspaces.find? (fun x => x.id == wid) = some w →
      (cu.is_superuser || w.owner_id == cu.id) = true →
      (db.users.find? (fun x => x.id == uid)).isSome →
      WorkspaceService.is_member db wid uid = true →
      routes.add_workspace_member db wid uid cu = (db, Except.error ApiError.badRequest)) := by
  refine ⟨?_, ?_, ?_⟩
  · intro hw hu hm
    unfold WorkspaceService.add_member
    rcases h1 : db.workspaces.find? (fun x => x.id == wid) with _ | w'
    · rw [h1] at hw; simp at hw
    rcases h2 : db.users.find? (fun x => x.id == uid) with _ | u'
    · rw [h2] at hu; simp at hu
    simp only [WorkspaceService.is_member] at hm
    simp [h1, h2, hm]
  · intro hp hu hacc hm
    unfold ProjectService.add_member
    rcases h2 : db.users.find? (fun x => x.id == uid) with _ | u'
    · rw [h2] at hu; simp at hu
    simp only [ProjectService.is_member] at hm
    simp [hp, h2, hacc, hm]
  · intro hw hauth hu hm
    unfold routes.add_workspace_member
    rcases h2 : db.users.find? (fun x => x.id == uid) with _ | u'
    · rw [h2] at hu; simp at hu
    simp [hw, h2, hauth, hm]

/-- C4 counterexample: user 3 is already a member of project 1 but has no
workspace access, and the service-level `ProjectService.add_member`
returns failure rather than the no-op success the claim asserts for
every user already in the member set. -/
theorem C4_counterexample :
    ProjectService.is_member exDBProjOnly3 1 3 = true ∧
    ProjectService.add_member exDBProjOnly3 1 3 = (exDBProjOnly3, false) :=
  ⟨by decide, by decide⟩

/-- C4 witness: with user 2 a workspace member and a project member, both
service-level duplicate adds are no-op successes and the route-level
duplicate add by the owner is a 400 error. -/
theorem C4_witness :
    WorkspaceService.add_member exDBBothMember2 1 2 = (exDBBothMember2, true) ∧
    ProjectService.add_member exDBBothMember2 1 2 = (exDBBothMember2, true) ∧
    routes.add_workspace_member exDBBothMember2 1 2 exUser1
      = (exDBBothMember2, Except.error ApiError.badRequest) :=
  ⟨(C4_duplicate_add_member_by_layer exDBBothMember2 1 1 2 exUser1 exWs1 exProj1).1
     (by decide) (by decide) (by decide),
   (C4_duplicate_add_member_by_layer exDBBothMember2 1 1 2 exUser1 exWs1 exProj1).2.1
     (by decide) (by decide) (by decide) (by decide),
   (C4_duplicate_add_member_by_layer exDBBothMember2 1 1 2 exUser1 exWs1 exProj1).2.2
     (by decide) (by decide) (by decide) (by decide)⟩

/-- C9: `ProjectService.add_member` fails (unchanged state, `false`)
whenever the candidate lacks workspace access, and a `true` result
implies the candidate had workspace access at that moment; the
route-level `add_project_member` enforces no such condition — in the
base example database the owner adds user 3, who has no workspace
access, and the insert succeeds. -/
theorem C9_project_member_implies_workspace_access :
    (∀ db pid uid p, db.projects.find? (fun x => x.id == pid) = some p →
      WorkspaceService.has_access db p.workspace_id uid = false →
      ProjectService.add_member db pid uid = (db, false)) ∧
    (∀ db pid uid, (ProjectService.add_member db pid uid).2 = true →
      ∃ p, db.projects.find? (fun x => x.id == pid) = some p ∧
        WorkspaceService.has_access db p.workspace_id uid = true) ∧
    ((routes.add_project_member exDB 1 3 exUser1).2 = Except.ok exProj1 ∧
      WorkspaceService.has_access (routes.add_project_member exDB 1 3 exUser1).1 1 3 = false ∧
      ProjectService.is_member (routes.add_project_member exDB 1 3 exUser1).1 1 3 = true) := by
  refine ⟨?_, ?_, by decide, by decide, by decide⟩
  · intro db pid uid p hp hacc
    unfold ProjectService.add_member
    rcases h2 : db.users.find? (fun x => x.id == uid) with _ | u'
    · simp [hp, h2]
    · simp [hp, h2, hacc]
  · intro db pid uid h
    unfold ProjectService.add_member at h
    rcases h1 : db.projects.find? (fun x => x.id == pid) with _ | p
    · rw [h1] at h; simp at h
    rw [h1] at h
    rcases h2 : db.users.find? (fun x => x.id == uid) with _ | u'
    · rw [h2] at h; simp at h
    rw [h2] at h
    by_cases h3 : WorkspaceService.has_access db p.workspace_id uid = true
    · exact ⟨p, h1, h3⟩
    · simp only [Bool.not_eq_true] at h3
      simp [h3] at h

/-- C9 witness: the service refuses to add user 3 (no workspace access)
to project 1, and a successful service-level add (user 2, a workspace
member) implies workspace access. -/
theorem C9_witness :
    ProjectService.add_member exDB 1 3 = (exDB, false) ∧
    (∃ p, exDBBothMember2.projects.find? (fun x => x.id == 1) = some p ∧
      WorkspaceService.has_access exDBBothMember2 p.workspace_id 2 = true) :=
  ⟨C9_project_member_implies_workspace_access.1 exDB 1 3 exProj1 (by decide) (by decide),
   C9_project_member_implies_workspace_access.2.1 exDBBothMember2 1 2 (by decide)⟩

/-- C7: a partial update whose payload contains only `status` leaves
`title`, `priority` and `assignee_id` untouched, on the route-level
`update_task` and on `TaskService.update_task` alike (both apply only the
fields present in the `exclude_unset` payload). -/
theorem C7_status_only_update_preserves_frame
    (db : DB) (task_id : Nat) (s : TaskStatus) (cu : UserRow) (uid : Nat)
    (t : TaskRow) (ht : db.tasks.find? (fun x => x.id == task_id) = some t) :
    (∀ t', (routes.update_task db task_id { status := some s } cu).2 = Except.ok t' →
      t'.title = t.title ∧ t'.priority = t.priority ∧ t'.assignee_id = t.assignee_id) ∧
    (∀ t', (TaskService.update_task db task_id { status := some s } uid).2 = some t' →
      t'.title = t.title ∧ t'.priority = t.priority ∧ t'.assignee_id = t.assignee_id) := by
  constructor
  · intro t' h
    rcases hp : db.projects.find? (fun x => x.id == t.project_id) with _ | p
    · simp only [routes.update_task, ht, hp] at h
      simp at h
    · rcases hw : db.workspaces.find? (fun x => x.id == p.workspace_id) with _ | w
      · simp only [routes.update_task, ht, hp, hw] at h
        simp at h
      · simp only [routes.update_task, ht, hp, hw] at h
        split at h
        · simp at h
        · simp at h
          subst h
          simp [applyTaskUpdate]
  · intro t' h
    simp only [TaskService.update_task, ht] at h
    split at h
    · simp at h
    · simp at h
      subst h
      simp [applyTaskUpdate]

/-- C7 witness: the workspace owner submits `{status := done}` for the
example task through the route layer; title, priority and assignee are
unchanged. -/
theorem C7_witness :
    ({ exTask1 with status := TaskStatus.done } : TaskRow).title = exTask1.title ∧
    ({ exTask1 with status := TaskStatus.done } : TaskRow).priority = exTask1.priority ∧
    ({ exTask1 with status := TaskStatus.done } : TaskRow).assignee_id = exTask1.assignee_id :=
  (C7_status_only_update_preserves_frame exDB 1 TaskStatus.done exUser1 1 exTask1 rfl).1
    { exTask1 with status := TaskStatus.done } (by decide)

/-- C1 counterexample: user 3 is the assignee of the example task and
none of the other roles; the claim says user 3 may both update and
delete it, but the route-level delete handler answers PermissionDenied
and leaves the database unchanged (update does succeed). -/
theorem C1_counterexample :
    exTask1.assignee_id = some exUser3.id ∧
    exUser3.is_superuser = false ∧
    exWs1.owner_id ≠ exUser3.id ∧
    exTask1.created_by_id ≠ exUser3.id ∧
    (routes.update_task exDB 1 {} exUser3).2 = Except.ok exTask1 ∧
    (routes.delete_task exDB 1 exUser3).2 = Except.error ApiError.permissionDenied ∧
    (routes.delete_task exDB 1 exUser3).1 = exDB :=
  ⟨by decide, by decide, by decide, by decide, by decide, by decide, by decide⟩

/-- C1 (amended): given the task/project/workspace chain, the route-level
update is denied exactly when the actor is none of superuser / workspace
owner / creator / assignee, while the route-level delete is denied
exactly when the actor is none of superuser / workspace owner / creator —
the assignee clause is absent from delete; a denied operation leaves the
database unchanged. `TaskService.delete_task` instead succeeds exactly
when the caller has project access (project member or workspace
owner/member) and leaves the database unchanged otherwise. -/
theorem C1_task_manage_auth_by_operation
    (db : DB) (task_id : Nat) (upd : TaskUpdate) (cu : UserRow) (uid : Nat)
    (t : TaskRow) (p : ProjectRow) (w : WorkspaceRow)
    (ht : db.tasks.find? (fun x => x.id == task_id) = some t)
    (hp : db.projects.find? (fun x => x.id == t.project_id) = some p)
    (hw : db.workspaces.find? (fun x => x.id == p.workspace_id) = some w) :
    (((routes.update_task db task_id upd cu).2 = Except.error ApiError.permissionDenied) ↔
      (cu.is_superuser || w.owner_id == cu.id || t.created_by_id == cu.id
        || t.assignee_id == some cu.id) = false) ∧
    (((routes.update_task db task_id upd cu).2 = Except.error ApiError.permissionDenied) →
      (routes.update_task db task_id upd cu).1 = db) ∧
    (((routes.delete_task db task_id cu).2 = Except.error ApiError.permissionDenied) ↔
      (cu.is_superuser || w.owner_id == cu.id || t.created_by_id == cu.id) = false) ∧
    (((routes.delete_task db task_id cu).2 = Except.error ApiError.permissionDenied) →
      (routes.delete_task db task_id cu).1 = db) ∧
    ((TaskService.delete_task db task_id uid).2 = ProjectService.has_access db t.project_id uid) ∧
    (ProjectService.has_access db t.project_id uid = false →
      (TaskService.delete_task db task_id uid).1 = db) := by
  have hupd_ok : (cu.is_superuser || w.owner_id == cu.id || t.created_by_id == cu.id
      || t.assignee_id == some cu.id) = true →
      (routes.update_task db task_id upd cu).2 ≠ Except.error ApiError.permissionDenied := by
    intro hA hcontra
    simp only [routes.update_task, ht, hp, hw, hA, Bool.not_true, Bool.false_eq_true,
      if_false] at hcontra
    rcases hup : upd.assignee_id with _ | a
    · simp only [hup] at hcontra
      simp at hcontra
    · simp only [hup] at hcontra
      by_cases h5 : (a != 0 && !(t.assignee_id == some a)) = true
      · simp only [h5, if_true] at hcontra
        rcases h6 : db.users.find? (fun x => x.id == a) with _ | au
        · simp only [h6] at hcontra
          simp at hcontra
        · simp only [h6] at hcontra
          by_cases h7 : (!ProjectService.is_member db p.id a && !(a == w.owner_id)
              && !WorkspaceService.is_member db w.id a) = true
          · simp only [h7, if_true] at hcontra
            simp at hcontra
          · simp only [Bool.not_eq_true] at h7
            simp only [h7, Bool.false_eq_true, if_false] at hcontra
            simp at hcontra
      · simp only [Bool.not_eq_true] at h5
        simp only [h5, Bool.false_eq_true, if_false] at hcontra
        simp at hcontra
  have hupd_deny : (cu.is_superuser || w.owner_id == cu.id || t.created_by_id == cu.id
      || t.assignee_id == some cu.id) = false →
      routes.update_task db task_id upd cu = (db, Except.error ApiError.permissionDenied) := by
    intro hA
    simp [routes.update_task, ht, hp, hw, hA]
  have hdel_ok : (cu.is_superuser || w.owner_id == cu.id || t.created_by_id == cu.id) = true →
      (routes.delete_task db task_id cu).2 ≠ Except.error ApiError.permissionDenied := by
    intro hA hcontra
    simp only [routes.delete_task, ht, hp, hw, hA, Bool.not_true, Bool.false_eq_true,
      if_false] at hcontra
    simp at hcontra
  have hdel_deny : (cu.is_superuser || w.owner_id == cu.id || t.created_by_id == cu.id) = false →
      routes.delete_task db task_id cu = (db, Except.error ApiError.permissionDenied) := by
    intro hA
    simp [routes.delete_task, ht, hp, hw, hA]
  refine ⟨?_, ?_, ?_, ?_, ?_, ?_⟩
  · by_cases hA : (cu.is_superuser || w.owner_id == cu.id || t.created_by_id == cu.id
        || t.assignee_id == some cu.id) = true
    · exact iff_of_false (hupd_ok hA) (by simp [hA])
    · simp only [Bool.not_eq_true] at hA
      exact iff_of_true (by rw [hupd_deny hA]) hA
  · intro hden
    by_cases hA : (cu.is_superuser || w.owner_id == cu.id || t.created_by_id == cu.id
        || t.assignee_id == some cu.id) = true
    · exact absurd hden (hupd_ok hA)
    · simp only [Bool.not_eq_true] at hA
      rw [hupd_deny hA]
  · by_cases hA : (cu.is_superuser || w.owner_id == cu.id || t.created_by_id == cu.id) = true
    · exact iff_of_false (hdel_ok hA) (by simp [hA])
    · simp only [Bool.not_eq_true] at hA
      exact iff_of_true (by rw [hdel_deny hA]) hA
  · intro hden
    by_cases hA : (cu.is_superuser || w.owner_id == cu.id || t.created_by_id == cu.id) = true
    · exact absurd hden (hdel_ok hA)
    · simp only [Bool.not_eq_true] at hA
      rw [hdel_deny hA]
  · simp only [TaskService.delete_task, ht]
    by_cases hacc : ProjectService.has_access db t.project_id uid = true
    · simp [hacc]
    · simp only [Bool.not_eq_true] at hacc
      simp [hacc]
  · intro hacc
    simp [TaskService.delete_task, ht, hacc]

/-- C1 witness: the amended statement instantiated for the assignee-only
user 3 on the example chain. -/
theorem C1_witness :
    ((routes.update_task exDB 1 {} exUser3).2 = Except.error ApiError.permissionDenied ↔
      (exUser3.is_superuser || exWs1.owner_id == exUser3.id
        || exTask1.created_by_id == exUser3.id
        || exTask1.assignee_id == some exUser3.id) = false) ∧
    ((routes.delete_task exDB 1 exUser3).2 = Except.error ApiError.permissionDenied ↔
      (exUser3.is_superuser || exWs1.owner_id == exUser3.id
        || exTask1.created_by_id == exUser3.id) = false) ∧
    (TaskService.delete_task exDB 1 3).2 = ProjectService.has_access exDB exTask1.project_id 3 :=
  ⟨(C1_task_manage_auth_by_operation exDB 1 {} exUser3 3 exTask1 exProj1 exWs1 rfl rfl rfl).1,
   (C1_task_manage_auth_by_operation exDB 1 {} exUser3 3 exTask1 exProj1 exWs1 rfl rfl rfl).2.2.1,
   (C1_task_manage_auth_by_operation exDB 1 {} exUser3 3 exTask1 exProj1 exWs1 rfl rfl rfl).2.2.2.2.1⟩

/-- Example database whose users are the workspace owner and an
unaffiliated superuser. -/
def exDBSuper9 : DB := { exDB with users := [exUser1, exSuper9] }

/-- Create payload naming the unaffiliated superuser as assignee. -/
def exTaskCreate9 : TaskCreate :=
  { title := "t", description := none, status := none, priority := none
    due_date := none, project_id := 1, assignee_id := some 9 }

/-- C5 counterexample: user 9 is a superuser but neither a project
member, nor the workspace owner, nor a workspace member; the claim says
a superuser passes `canAssign` unconditionally, but the route-level
create rejects the assignment with 400 (database unchanged) and the
service-level create returns `None`. -/
theorem C5_counterexample :
    exSuper9.is_superuser = true ∧
    (routes.create_task exDBSuper9 exTaskCreate9 exUser1).2 = Except.error ApiError.badRequest ∧
    (routes.create_task exDBSuper9 exTaskCreate9 exUser1).1 = exDBSuper9 ∧
    TaskService.create_task exDBSuper9 exTaskCreate9 1 1 = TaskService.SvcCreate.retNone :=
  ⟨by decide, by decide, by decide, by decide⟩

/-- C5 (amended): superuser status exempts the ACTOR from every
permission predicate, but the assignee-validation check (`canAssign`)
has no superuser clause: an assignee candidate — superuser or not — who
is not a project member, not the workspace owner and not a workspace
member is rejected: the route-level create answers 400 with the database
unchanged, and `TaskService.create_task` returns `None` for every
creator. -/
theorem C5_canAssign_has_no_superuser_clause
    (db : DB) (tc : TaskCreate) (cu au : UserRow) (p : ProjectRow) (w : WorkspaceRow) (a : Nat)
    (hp : db.projects.find? (fun x => x.id == tc.project_id) = some p)
    (hw : db.workspaces.find? (fun x => x.id == p.workspace_id) = some w)
    (hauth : (cu.is_superuser || w.owner_id == cu.id
      || WorkspaceService.is_member db w.id cu.id
      || ProjectService.is_member db p.id cu.id) = true)
    (ha : tc.assignee_id = some a) (ha0 : (a != 0) = true)
    (hau : db.users.find? (fun x => x.id == a) = some au)
    (hsuper : au.is_superuser = true)
    (hnm : ProjectService.is_member db p.id a = false)
    (hno : (a == w.owner_id) = false)
    (hnw : WorkspaceService.is_member db w.id a = false) :
    routes.create_task db tc cu = (db, Except.error ApiError.badRequest) ∧
    (∀ creator_id, TaskService.create_task db tc tc.project_id creator_id
      = TaskService.SvcCreate.retNone) := by
  have hpid : p.id = tc.project_id := by
    have h := List.find?_some hp
    simpa using h
  have hwid : w.id = p.workspace_id := by
    have h := List.find?_some hw
    simpa using h
  have hno' : (w.owner_id == a) = false := by
    rw [beq_eq_false_iff_ne] at hno ⊢
    exact fun h => hno h.symm
  have hcond : (!ProjectService.is_member db p.id a && !(a == w.owner_id)
      && !WorkspaceService.is_member db w.id a) = true := by
    simp [hnm, hno, hnw]
  constructor
  · simp only [routes.create_task, hp, hw, hauth, Bool.not_true, Bool.false_eq_true,
      if_false, ha, ha0, if_true, hau, hcond]
  · intro creator_id
    unfold TaskService.create_task
    by_cases hc : ProjectService.has_access db tc.project_id creator_id = true
    · have hacc : ProjectService.has_access db tc.project_id a = false := by
        unfold ProjectService.has_access
        simp only [hp]
        rw [← hpid]
        rw [hwid] at hnw
        simp [hnm, WorkspaceService.has_access, WorkspaceService.is_owner, hw, hno', hnw]
      simp only [hc, Bool.not_true, Bool.false_eq_true, if_false, ha, ha0, if_true, hau,
        hacc, Bool.not_false, if_true]
    · simp only [Bool.not_eq_true] at hc
      simp [hc]

/-- C5 witness: the amended statement instantiated for the unaffiliated
superuser candidate (user 9) named as assignee by the owner (user 1). -/
theorem C5_witness :
    routes.create_task exDBSuper9 exTaskCreate9 exUser1
      = (exDBSuper9, Except.error ApiError.badRequest) ∧
    TaskService.create_task exDBSuper9 exTaskCreate9 exTaskCreate9.project_id 1
      = TaskService.SvcCreate.retNone :=
  ⟨(C5_canAssign_has_no_superuser_clause exDBSuper9 exTaskCreate9 exUser1 exSuper9 exProj1
      exWs1 9 rfl rfl (by decide) rfl (by decide) rfl rfl (by decide) (by decide)
      (by decide)).1,
   (C5_canAssign_has_no_superuser_clause exDBSuper9 exTaskCreate9 exUser1 exSuper9 exProj1
      exWs1 9 rfl rfl (by decide) rfl (by decide) rfl rfl (by decide) (by decide)
      (by decide)).2 1⟩

/-- The spec's read-predicate chain for tasks (§4.1 `canReadTask` without
the superuser clause, as used by the listing flow of §4.2): the user is
the workspace owner or a workspace member, or a project member, or the
task's assignee, or the task's creator. Written from the spec's words,
for comparison with the code's listing filters. -/
def specTaskReadChain (db : DB) (uid : Nat) (t : TaskRow) : Bool :=
  match db.projects.find? (fun p => p.id == t.project_id) with
  | none => false
  | some p =>
    match db.workspaces.find? (fun w => w.id == p.workspace_id) with
    | none => false
    | some w =>
      w.owner_id == uid || WorkspaceService.is_member db w.id uid
        || ProjectService.is_member db p.id uid
        || t.assignee_id == some uid || t.created_by_id == uid

/-- C6 counterexample: user 3 satisfies the read chain for the example
task (assignee clause), and the route-level list returns it — but
`TaskService.get_tasks_by_user_access` returns the empty list, so the
claim fails for that entry point. -/
theorem C6_counterexample :
    specTaskReadChain exDB exUser3.id exTask1 = true ∧
    routes.read_tasks exDB 0 100 none none none exUser3 = [exTask1] ∧
    TaskService.get_tasks_by_user_access exDB exUser3.id none 0 100 = [] :=
  ⟨by decide, by decide, by decide⟩

/-- C6 (amended): for a non-superuser with no explicit filters and a
window covering the whole table, the route-level `read_tasks` returns
exactly the tasks satisfying the read-predicate chain; but every task
returned by `TaskService.get_tasks_by_user_access` lies in a project the
user is an EXPLICIT member of — that entry point never returns
assignee-only, creator-only or workspace-owner/member-only tasks. -/
theorem C6_read_tasks_route_exact_service_member_only
    (db : DB) (cu : UserRow) (hsu : cu.is_superuser = false) :
    (∀ t : TaskRow, t ∈ routes.read_tasks db 0 (db.tasks.length : Int) none none none cu ↔
      t ∈ db.tasks ∧ specTaskReadChain db cu.id t = true) ∧
    (∀ uid status skip limit, ∀ t ∈ TaskService.get_tasks_by_user_access db uid status skip limit,
      ProjectService.is_member db t.project_id uid = true) := by
  constructor
  · intro t
    unfold routes.read_tasks
    simp only [hsu, Bool.false_eq_true, if_false, Bool.true_and, Bool.and_true]
    rw [List.filter_true, sqlWindow_of_length_le (by simpa using List.length_filter_le _ db.tasks)]
    rw [List.mem_filter]
    apply and_congr_right
    intro _
    unfold specTaskReadChain
    rcases h1 : db.projects.find? (fun x => x.id == t.project_id) with _ | p
    · simp [h1]
    rcases h2 : db.workspaces.find? (fun x => x.id == p.workspace_id) with _ | w
    · simp [h1, h2]
    simp only [h1, h2, Bool.or_eq_true]
    tauto
  · intro uid status skip limit t hmem
    simp only [TaskService.get_tasks_by_user_access] at hmem
    split at hmem
    · simp at hmem
    · have h1 := List.of_mem_filter (mem_of_mem_sqlWindow hmem)
      have h3 := ((Bool.and_eq_true _ _).mp h1).1
      have h4 : t.project_id ∈ (ProjectService.get_projects_by_user db uid 0 100).map
          (fun p => p.id) := by
        simpa using h3
      rw [List.mem_map] at h4
      obtain ⟨q, hq, hqid⟩ := h4
      have hq2 : q ∈ db.projects.filter (fun p => ProjectService.is_member db p.id uid) :=
        mem_of_mem_sqlWindow (by simpa [ProjectService.get_projects_by_user] using hq)
      have h5 := List.of_mem_filter hq2
      rw [← hqid]
      simpa using h5

/-- C6 witness: the amended statement instantiated — the route-level
exactness iff for user 3 on the base example database, and the
project-membership consequence for user 2 (a project member) on the
database where user 2 belongs to project 1. -/
theorem C6_witness :
    (exTask1 ∈ routes.read_tasks exDB 0 (exDB.tasks.length : Int) none none none exUser3 ↔
      exTask1 ∈ exDB.tasks ∧ specTaskReadChain exDB exUser3.id exTask1 = true) ∧
    ProjectService.is_member exDBBothMember2 exTask1.project_id 2 = true :=
  ⟨(C6_read_tasks_route_exact_service_member_only exDB exUser3 rfl).1 exTask1,
   (C6_read_tasks_route_exact_service_member_only exDBBothMember2 exUser2 rfl).2
     2 none 0 100 exTask1 (by decide)⟩
